import Mathlib

/-!
Shallow embedding of the QUIC-LB-SHRIMP repository (Go) and verification of
its specification claims.

Modelling conventions:
* A Go `[]byte` is a `List Nat` whose elements are below 256.
* A Go runtime panic (slice/index out of range, nil-pointer dereference,
  failed `assert`) is modelled by an `Option` layer returning `none`.
* A Go `(value, error)` return pair is modelled by `value × Option String`
  (`none` models a `nil` Go error).
-/

namespace QuicLB

/-- Go byte-slice indexing `l[i]`; `none` models the runtime panic
"index out of range". -/
def goIndex (l : List Nat) (i : Nat) : Option Nat := l.get? i

/-- Go slicing `l[lo:hi]`, which requires `lo ≤ hi ≤ len(l)` and otherwise
panics ("slice bounds out of range", modelled by `none`). -/
def goSlice (l : List Nat) (lo hi : Nat) : Option (List Nat) :=
  if lo ≤ hi ∧ hi ≤ l.length then some ((l.drop lo).take (hi - lo)) else none

/-- The source's `assert` helper: panics ("assertion failed") when the
condition is false. -/
def assert (condition : Bool) : Option Unit :=
  if condition then some () else none

/-- Go type `PacketType uint8`. -/
abbrev PacketType := Nat

/-- Constant `Initial PacketType = 0x00`. -/
def Initial : PacketType := 0x00

/-- Constant `ZeroRTT PacketType = 0x01`. -/
def ZeroRTT : PacketType := 0x01

/-- Constant `HandShake PacketType = 0x02`. -/
def HandShake : PacketType := 0x02

/-- Constant `Retry PacketType = 0x03`. -/
def Retry : PacketType := 0x03

/-- Constant `OneRTT PacketType = 0x04`. -/
def OneRTT : PacketType := 0x04

/-- The Go struct `LongHeader`. -/
structure LongHeader where
  HeaderForm : Nat
  LongPacketType : PacketType
  TypeSpecific : Nat
  Version : Nat
  DCIDLength : Nat
  DCID : List Nat
  SCIDLength : Nat
  SCID : List Nat
  deriving DecidableEq

/-- The Go struct `ShortHeader`. -/
structure ShortHeader where
  HeaderForm : Nat
  ReservedBits : Nat
  KeyPhase : Nat
  PacketNumberLength : Nat
  DCID : List Nat
  PacketNumber : Nat
  deriving DecidableEq

/-- The Go struct `PacketProcessor` (field `DCIDLength uint8`). -/
structure PacketProcessor where
  DCIDLength : Nat
  deriving DecidableEq

/-- Models the Go standard-library function `binary.BigEndian.Uint32`, which
returns the big-endian 32-bit value of a 4-byte slice. -/
def beUint32 : List Nat → Nat
  | b0 :: b1 :: b2 :: b3 :: _ => b0 * 16777216 + b1 * 65536 + b2 * 256 + b3
  | _ => 0

/-- `PacketProcessor.parseLongHeader` from the source.  Index and slice
bounds reproduce the Go `uint8` arithmetic (`6+DCIDLength`, `6+DCIDLength+1`,
`6+DCIDLength+1+SCIDLength` are computed modulo 256, as the Go operands have
type `uint8`).  The Go method always returns a `nil` error; every failure is
a runtime panic (`none`). -/
def parseLongHeader (packet : List Nat) : Option (LongHeader × Option String) := do
  let b0 ← goIndex packet 0
  let ver ← goSlice packet 1 5
  let dcidLen ← goIndex packet 5
  let dcid ← goSlice packet 6 ((6 + dcidLen) % 256)
  let scidLen ← goIndex packet ((6 + dcidLen) % 256)
  let scid ← goSlice packet ((6 + dcidLen + 1) % 256) ((6 + dcidLen + 1 + scidLen) % 256)
  some ({ HeaderForm := 1
          LongPacketType := (b0 >>> 4) &&& 0x1
          TypeSpecific := b0 &&& 0x0F
          Version := beUint32 ver
          DCIDLength := dcidLen
          DCID := dcid
          SCIDLength := scidLen
          SCID := scid }, none)

/-- `PacketProcessor.parseShortHeader` from the source.  The slice bound
`1+p.DCIDLength` is Go `uint8` arithmetic, hence the `% 256`.  The unset
`PacketNumber` field keeps its Go zero value. -/
def parseShortHeader (p : PacketProcessor) (packet : List Nat) :
    Option (ShortHeader × Option String) := do
  let b0 ← goIndex packet 0
  let dcid ← goSlice packet 1 ((1 + p.DCIDLength) % 256)
  some ({ HeaderForm := 0
          ReservedBits := (b0 >>> 3) &&& 0x3
          KeyPhase := (b0 >>> 2) &&& 0x1
          PacketNumberLength := b0 &&& 0x3
          DCID := dcid
          PacketNumber := 0 }, none)

/-- The parsed result of `ParsePacket` (the Go interface value `QuicHeader`
holding either a `*LongHeader` or a `*ShortHeader`). -/
inductive ParsedHeader where
  | long (h : LongHeader)
  | short (h : ShortHeader)
  deriving DecidableEq

/-- `PacketProcessor.ParsePacket` from the source: reads `packet[0]`
unconditionally (a panic on an empty datagram), asserts a tautology, then
dispatches on `firstByte >> 7`. -/
def ParsePacket (p : PacketProcessor) (packet : List Nat) :
    Option (ParsedHeader × Option String) := do
  let firstByte ← goIndex packet 0
  let headerForm := firstByte >>> 7
  let _ ← assert ((headerForm &&& 0x1 == 1) || (headerForm &&& 0x1 == 0))
  if headerForm = 1 then
    let r ← parseLongHeader packet
    some (ParsedHeader.long r.1, r.2)
  else
    let r ← parseShortHeader p packet
    some (ParsedHeader.short r.1, r.2)

/-- `LongHeader.GetCID` from the source: returns the DCID and a `nil` error. -/
def LongHeader.GetCID (lh : LongHeader) : List Nat × Option String :=
  (lh.DCID, none)

/-- `LongHeader.GetPacketType` from the source. -/
def LongHeader.GetPacketType (lh : LongHeader) : PacketType × Option String :=
  (lh.LongPacketType, none)

/-- `LongHeader.GetHeaderForm` from the source. -/
def LongHeader.GetHeaderForm (lh : LongHeader) : Nat × Option String :=
  (lh.HeaderForm, none)

/-- `ShortHeader.GetCID` from the source. -/
def ShortHeader.GetCID (sh : ShortHeader) : List Nat × Option String :=
  (sh.DCID, none)

/-- `ShortHeader.GetPacketType` from the source: returns the constant
`OneRTT` regardless of the header's contents. -/
def ShortHeader.GetPacketType (_ : ShortHeader) : PacketType × Option String :=
  (OneRTT, none)

/-- `ShortHeader.GetHeaderForm` from the source. -/
def ShortHeader.GetHeaderForm (sh : ShortHeader) : Nat × Option String :=
  (sh.HeaderForm, none)

/-- The Go struct `LoadBalancer` from `pkg/lb/lb.go`.  The `net.PacketConn`
listener is an opaque handle (`Option Nat`, `none` = nil) and the
`*packet.HeaderParser` field is a nil-able extraction function. -/
structure LoadBalancer where
  listenAddr : String
  backends : List String
  listener : Option Nat
  running : Bool
  packetProcessor : Option (List Nat → Option (List Nat × Option String))

/-- `InitLoadBalancer` from the source: builds the struct literal (the
`listener` and `packetProcessor` fields keep their zero value `nil`) and
returns it with a `nil` error, unconditionally. -/
def InitLoadBalancer (listenAddr : String) (backends : List String) :
    LoadBalancer × Option String :=
  ({ listenAddr := listenAddr
     backends := backends
     listener := none
     running := false
     packetProcessor := none }, none)

/-- `LoadBalancer.Start` from the source.  The outcome of the external call
`net.ListenPacket` is passed in as `listenResult` (`Except.error` = non-nil
error, `Except.ok` = the new listener handle). -/
def Start (listenResult : Except String Nat) (lb : LoadBalancer) :
    LoadBalancer × Option String :=
  if lb.running = true then (lb, none)
  else
    match listenResult with
    | Except.error e => (lb, some e)
    | Except.ok l => ({ lb with listener := some l, running := true }, none)

/-- `LoadBalancer.Shutdown` from the source.  The outcome of the external
call `lb.listener.Close()` is passed in as `closeResult` (`some e` = non-nil
error). -/
def Shutdown (closeResult : Option String) (lb : LoadBalancer) :
    LoadBalancer × Option String :=
  if lb.running = false then (lb, none)
  else
    match closeResult with
    | some e => (lb, some e)
    | none => ({ lb with running := false }, none)

/-- `LoadBalancer.ExtractCID` from the source: calls through the
`packetProcessor` pointer; a `nil` pointer is a runtime panic (`none`). -/
def ExtractCID (lb : LoadBalancer) (packet : List Nat) :
    Option (List Nat × Option String) :=
  match lb.packetProcessor with
  | none => none
  | some hp => hp packet

/-! ### Helper lemmas -/

lemma goSlice_eq_some {l : List Nat} {lo hi : Nat} (h1 : lo ≤ hi) (h2 : hi ≤ l.length) :
    goSlice l lo hi = some ((l.drop lo).take (hi - lo)) := by
  rw [goSlice, if_pos ⟨h1, h2⟩]

lemma goSlice_eq_none {l : List Nat} {lo hi : Nat} (h : ¬(lo ≤ hi ∧ hi ≤ l.length)) :
    goSlice l lo hi = none := by
  rw [goSlice, if_neg h]

lemma getD_zero_of_get? {l : List Nat} {i v : Nat} (h : l.get? i = some v) :
    l.getD i 0 = v := by
  rw [List.getD_eq_getElem?_getD, ← List.get?_eq_getElem?, h]
  rfl

lemma drop_one_take_four {l : List Nat} {v1 v2 v3 v4 : Nat}
    (h1 : l.get? 1 = some v1) (h2 : l.get? 2 = some v2)
    (h3 : l.get? 3 = some v3) (h4 : l.get? 4 = some v4) :
    (l.drop 1).take 4 = [v1, v2, v3, v4] := by
  rcases l with _ | ⟨a, _ | ⟨b, _ | ⟨c, _ | ⟨d, _ | ⟨e, t⟩⟩⟩⟩⟩ <;> simp_all

/-- Success characterization of `parseLongHeader`: when the datagram holds
the whole declared header and the `uint8` index arithmetic does not wrap,
every step succeeds and the fields are the declared slices. -/
lemma parseLongHeader_success {packet : List Nat} {b0 dcl scl : Nat}
    (h0 : packet.get? 0 = some b0)
    (hd : packet.get? 5 = some dcl)
    (hs : packet.get? (6 + dcl) = some scl)
    (hdcl : dcl ≤ 248)
    (hwrap : 6 + dcl + 1 + scl ≤ 255)
    (hlen : 6 + dcl + 1 + scl ≤ packet.length) :
    parseLongHeader packet =
      some ({ HeaderForm := 1
              LongPacketType := (b0 >>> 4) &&& 0x1
              TypeSpecific := b0 &&& 0x0F
              Version := beUint32 ((packet.drop 1).take 4)
              DCIDLength := dcl
              DCID := (packet.drop 6).take dcl
              SCIDLength := scl
              SCID := (packet.drop (6 + dcl + 1)).take scl }, none) := by
  have e1 : (6 + dcl) % 256 = 6 + dcl := Nat.mod_eq_of_lt (by omega)
  have e2 : (6 + dcl + 1) % 256 = 6 + dcl + 1 := Nat.mod_eq_of_lt (by omega)
  have e3 : (6 + dcl + 1 + scl) % 256 = 6 + dcl + 1 + scl := Nat.mod_eq_of_lt (by omega)
  have s1 : goSlice packet 1 5 = some ((packet.drop 1).take 4) := by
    have := @goSlice_eq_some packet 1 5 (by omega) (by omega)
    simpa using this
  have s2 : goSlice packet 6 (6 + dcl) = some ((packet.drop 6).take dcl) := by
    have := @goSlice_eq_some packet 6 (6 + dcl) (by omega) (by omega)
    simpa using this
  have s3 : goSlice packet (6 + dcl + 1) (6 + dcl + 1 + scl) =
      some ((packet.drop (6 + dcl + 1)).take scl) := by
    have := @goSlice_eq_some packet (6 + dcl + 1) (6 + dcl + 1 + scl)
      (by omega) (by omega)
    simpa using this
  simp only [parseLongHeader, goIndex, h0, s1, hd, e1, e2, e3, s2, hs, s3,
    Option.some_bind, Option.bind_eq_bind]

/-! ### Claim theorems -/

/-- Claim C1 (code bug): the claim says `parseLongHeader` sets the packet
type from the 2 bits at positions 4-5 of byte 0, `(byte0 >> 4) & 0x3`,
mapping `0xE0` (bits `10`) to `HandShake`.  The code instead masks with
`0x1`: on the long-form datagram `0xE0 00 00 00 01 00 00` it yields
`Initial`, while the claim's formula yields `HandShake`, a value the code
can never produce (its mask keeps one bit only). -/
theorem c1_long_packet_type_uses_one_bit :
    (parseLongHeader [0xE0, 0x00, 0x00, 0x00, 0x01, 0x00, 0x00]).map
        (fun r => r.1.LongPacketType) = some Initial ∧
      ((0xE0 >>> 4) &&& 0x3 : Nat) = HandShake ∧ Initial ≠ HandShake := by
  decide

/-- Claim C7 (code bug): the claim says `ParsePacket` never panics on any
input, including the empty datagram.  The code evaluates `packet[0]`
unconditionally, so the empty datagram causes an index-out-of-range runtime
panic (modelled by `none`); no typed error result is produced. -/
theorem c7_parse_empty_panics : ParsePacket ⟨8⟩ [] = none := by
  rfl

/-- Claim C9: every accessor of the `QuicHeader` interface on both
`LongHeader` and `ShortHeader` returns a `nil` error, and
`ShortHeader.GetPacketType` returns the constant `OneRTT` regardless of the
header's contents. -/
theorem c9_accessors_nil_error (lh : LongHeader) (sh : ShortHeader) :
    (lh.GetCID).2 = none ∧ (lh.GetPacketType).2 = none ∧
      (lh.GetHeaderForm).2 = none ∧ (sh.GetCID).2 = none ∧
      (sh.GetPacketType).2 = none ∧ (sh.GetHeaderForm).2 = none ∧
      (sh.GetPacketType).1 = OneRTT := by
  exact ⟨rfl, rfl, rfl, rfl, rfl, rfl, rfl⟩

/-- Claim C10: `InitLoadBalancer` returns a `nil` error for every listen
address and backend list, the constructed `LoadBalancer` has a nil
`packetProcessor`, and `ExtractCID` on the freshly initialized balancer
never successfully returns a CID (it dereferences the nil pointer, a
runtime panic modelled by `none`). -/
theorem c10_init_and_extract (addr : String) (backends : List String) :
    (InitLoadBalancer addr backends).2 = none ∧
      (InitLoadBalancer addr backends).1.packetProcessor = none ∧
      ∀ packet, ExtractCID (InitLoadBalancer addr backends).1 packet = none := by
  exact ⟨rfl, rfl, fun _ => rfl⟩

/-- Claim C8: `Start` is a no-op returning `nil` when `running` is already
true, and `Shutdown` is a no-op returning `nil` when `running` is already
false; in both cases the whole `LoadBalancer` is left unchanged, whatever
the outcome of the external listen/close calls would have been. -/
theorem c8_start_shutdown_idempotent (lb : LoadBalancer)
    (listenResult : Except String Nat) (closeResult : Option String) :
    (lb.running = true → Start listenResult lb = (lb, none)) ∧
      (lb.running = false → Shutdown closeResult lb = (lb, none)) := by
  constructor
  · intro h
    rw [Start.eq_def, if_pos h]
  · intro h
    rw [Shutdown.eq_def, if_pos h]

/-- Claim C5: a long-form datagram declaring a zero-length destination CID
parses successfully and yields an empty CID (provided the datagram also
holds its declared SCID, with no `uint8` wrap); in particular the 7-byte
datagram `0xC0, version 1, DCID length 0, SCID length 0` parses to an
Initial packet with empty DCID and empty SCID and a `nil` error. -/
theorem c5_zero_length_dcid_parses :
    (∀ (packet : List Nat) (b0 scl : Nat),
        packet.get? 0 = some b0 → packet.get? 5 = some 0 →
        packet.get? 6 = some scl → scl ≤ 248 → 7 + scl ≤ packet.length →
        (parseLongHeader packet).map (fun r => (r.1.DCID, r.1.DCIDLength, r.2)) =
          some ([], 0, none)) ∧
      parseLongHeader [0xC0, 0x00, 0x00, 0x00, 0x01, 0x00, 0x00] =
        some ({ HeaderForm := 1, LongPacketType := Initial, TypeSpecific := 0,
                Version := 1, DCIDLength := 0, DCID := [], SCIDLength := 0,
                SCID := [] }, none) := by
  constructor
  · intro packet b0 scl h0 hd hs hscl hlen
    have hs6 : packet.get? (6 + 0) = some scl := by simpa using hs
    have hp := parseLongHeader_success h0 hd hs6 (by omega) (by omega) (by omega)
    rw [hp]
    simp
  · decide

/-- Claim C5 witness: the universal part applied to the concrete 7-byte
datagram of the scenario. -/
theorem c5_witness :
    (parseLongHeader [0xC0, 0x00, 0x00, 0x00, 0x01, 0x00, 0x00]).map
        (fun r => (r.1.DCID, r.1.DCIDLength, r.2)) = some ([], 0, none) :=
  c5_zero_length_dcid_parses.1 _ 0xC0 0 (by decide) (by decide) (by decide)
    (by decide) (by decide)

/-- Claim C6: for a datagram whose first byte `b0` is a byte, `ParsePacket`
dispatches to the short-form path exactly when bit 7 of `b0` is clear, and
whenever the short-form parse succeeds it decodes reserved bits as
`(b0 >> 3) & 0x3`, key phase as `(b0 >> 2) & 0x1` and packet-number length
as `b0 & 0x3`. -/
theorem c6_short_header_bit_fields (p : PacketProcessor) (packet : List Nat)
    (b0 : Nat) (h0 : packet.get? 0 = some b0) (hb : b0 < 256) :
    ParsePacket p packet =
        (if b0.testBit 7 then
          (parseLongHeader packet).map (fun r => (ParsedHeader.long r.1, r.2))
        else
          (parseShortHeader p packet).map (fun r => (ParsedHeader.short r.1, r.2))) ∧
      (parseShortHeader p packet).map
          (fun r => (r.1.ReservedBits, r.1.KeyPhase, r.1.PacketNumberLength)) =
        (parseShortHeader p packet).map
          (fun _ => ((b0 >>> 3) &&& 0x3, (b0 >>> 2) &&& 0x1, b0 &&& 0x3)) := by
  have h0g : packet[0]? = some b0 := by
    rw [← List.get?_eq_getElem?]
    exact h0
  have hp7 : (2 : Nat) ^ 7 = 128 := by norm_num
  constructor
  · have hdiv : b0 >>> 7 = b0 / 128 := by
      rw [Nat.shiftRight_eq_div_pow, hp7]
    by_cases hlt : b0 < 128
    · have h7 : b0 >>> 7 = 0 := by omega
      have ht : b0.testBit 7 = false := by
        rw [Nat.testBit_to_div_mod, hp7]
        simp only [decide_eq_false_iff_not]
        omega
      simp [ParsePacket, goIndex, h0g, assert, h7, ht]
      rcases parseShortHeader p packet with _ | r <;> rfl
    · have h7 : b0 >>> 7 = 1 := by omega
      have ht : b0.testBit 7 = true := by
        rw [Nat.testBit_to_div_mod, hp7]
        simp only [decide_eq_true_eq]
        omega
      simp [ParsePacket, goIndex, h0g, assert, h7, ht]
      rcases parseLongHeader packet with _ | r <;> rfl
  · cases hsl : goSlice packet 1 ((1 + p.DCIDLength) % 256) with
    | none => simp [parseShortHeader, goIndex, h0g, hsl]
    | some d => simp [parseShortHeader, goIndex, h0g, hsl]

/-- Claim C6 witness: the dispatch equation at the concrete 9-byte
short-form datagram starting with byte `0x6D`. -/
theorem c6_witness :
    ([0x6D, 1, 2, 3, 4, 5, 6, 7, 8] : List Nat).get? 0 = some 0x6D ∧
      ParsePacket ⟨8⟩ [0x6D, 1, 2, 3, 4, 5, 6, 7, 8] =
        (if Nat.testBit 0x6D 7 then
          (parseLongHeader [0x6D, 1, 2, 3, 4, 5, 6, 7, 8]).map
            (fun r => (ParsedHeader.long r.1, r.2))
        else
          (parseShortHeader ⟨8⟩ [0x6D, 1, 2, 3, 4, 5, 6, 7, 8]).map
            (fun r => (ParsedHeader.short r.1, r.2))) :=
  ⟨by decide, (c6_short_header_bit_fields ⟨8⟩ _ 0x6D (by decide) (by decide)).1⟩

/-- Claim C3 counterexample: on the 9-byte short-form datagram with supplied
CID length 9 the claim says parsing fails with a `Truncated` error result;
the code instead evaluates `packet[1:10]` on a 9-byte slice, a runtime panic
(modelled by `none`), and never produces any error value. -/
theorem c3_counterexample :
    parseShortHeader ⟨9⟩ [0x40, 1, 2, 3, 4, 5, 6, 7, 8] = none := by
  decide

/-- Claim C3 (amended): for a supplied length `L ≤ 254`, short-form parsing
yields no result — a slice-bounds runtime panic, not a `Truncated` error
value — exactly when the datagram is shorter than `1 + L`; otherwise it
succeeds with a `nil` error and a destination CID of exactly `L` bytes. -/
theorem c3_short_parse_boundary (L : Nat) (packet : List Nat) (hL : L ≤ 254) :
    (parseShortHeader ⟨L⟩ packet = none ↔ packet.length < 1 + L) ∧
      (1 + L ≤ packet.length →
        (parseShortHeader ⟨L⟩ packet).map (fun r => (r.1.DCID, r.2)) =
            some ((packet.drop 1).take L, none) ∧
          ((packet.drop 1).take L).length = L) := by
  have eL : (1 + L) % 256 = 1 + L := Nat.mod_eq_of_lt (by omega)
  cases packet with
  | nil =>
    constructor
    · simp [parseShortHeader, goIndex]
    · intro h
      simp only [List.length_nil] at h
      omega
  | cons a t =>
    have hlc : (a :: t).length = t.length + 1 := List.length_cons a t
    by_cases hc : 1 + L ≤ (a :: t).length
    · have hs : goSlice (a :: t) 1 (1 + L) = some (((a :: t).drop 1).take L) := by
        have := @goSlice_eq_some (a :: t) 1 (1 + L) (by omega) hc
        simpa using this
      refine ⟨?_, fun _ => ⟨?_, ?_⟩⟩
      · simp only [parseShortHeader, goIndex, eL, hs, List.get?_cons_zero,
          Option.some_bind, Option.bind_eq_bind, List.length_cons]
        constructor
        · intro hx
          exact absurd hx (by simp)
        · intro hx
          omega
      · simp [parseShortHeader, goIndex, eL, hs]
      · simp only [List.length_take, List.length_drop, List.length_cons]
        omega
    · have hs : goSlice (a :: t) 1 ((1 + L) % 256) = none := by
        rw [eL]
        exact goSlice_eq_none (fun hx => hc hx.2)
      refine ⟨?_, fun h => absurd h hc⟩
      simp only [parseShortHeader, goIndex, hs, List.get?_cons_zero,
        Option.some_bind, Option.bind_eq_bind, Option.none_bind, List.length_cons]
      constructor
      · intro _
        omega
      · intro _
        trivial

/-- Claim C3 witness: the amended boundary applied at the scenario's 9-byte
datagram with supplied length 8 (success side). -/
theorem c3_witness :
    (parseShortHeader ⟨8⟩ [0x40, 1, 2, 3, 4, 5, 6, 7, 8] = none ↔
        ([0x40, 1, 2, 3, 4, 5, 6, 7, 8] : List Nat).length < 1 + 8) ∧
      (parseShortHeader ⟨8⟩ [0x40, 1, 2, 3, 4, 5, 6, 7, 8]).map
          (fun r => (r.1.DCID, r.2)) =
        some ((([0x40, 1, 2, 3, 4, 5, 6, 7, 8] : List Nat).drop 1).take 8, none) :=
  ⟨(c3_short_parse_boundary 8 _ (by decide)).1,
    ((c3_short_parse_boundary 8 _ (by decide)).2 (by decide)).1⟩

/-- Claim C2 counterexample: the 7-byte long-form datagram declaring an
8-byte destination CID is shorter than its declared lengths require; the
claim says parsing fails with a `Truncated` error and never panics, but the
code evaluates `packet[6:14]` on a 7-byte slice — an out-of-range runtime
panic (modelled by `none`) — and never produces any error value. -/
theorem c2_counterexample :
    parseLongHeader [0xC0, 0x00, 0x00, 0x00, 0x01, 0x08, 0xAA] = none := by
  decide

/-- Claim C2 (amended): for every long-form datagram of bytes whose declared
destination-CID length is at most 248 (so the `uint8` index arithmetic does
not wrap) and which is shorter than 6 bytes plus its declared destination-
and source-CID lengths, parsing yields no result: the code panics on an
out-of-range slice instead of returning a `Truncated` error. -/
theorem c2_truncated_long_parse_panics (packet : List Nat)
    (hb : ∀ b ∈ packet, b < 256)
    (hdcl : packet.getD 5 0 ≤ 248)
    (hshort : packet.length <
      6 + packet.getD 5 0 + packet.getD (6 + packet.getD 5 0) 0) :
    parseLongHeader packet = none := by
  by_cases h5 : 5 < packet.length
  · obtain ⟨dcl, hd⟩ : ∃ v, packet.get? 5 = some v := by
      rw [List.get?_eq_get h5]
      exact ⟨_, rfl⟩
    have hdg : packet.getD 5 0 = dcl := getD_zero_of_get? hd
    rw [hdg] at hdcl hshort
    obtain ⟨b0, h0⟩ : ∃ v, packet.get? 0 = some v := by
      rw [List.get?_eq_get (by omega)]
      exact ⟨_, rfl⟩
    have s1 : goSlice packet 1 5 = some ((packet.drop 1).take 4) := by
      have := @goSlice_eq_some packet 1 5 (by omega) (by omega)
      simpa using this
    have e1 : (6 + dcl) % 256 = 6 + dcl := Nat.mod_eq_of_lt (by omega)
    by_cases hA : 6 + dcl ≤ packet.length
    · have s2 : goSlice packet 6 (6 + dcl) = some ((packet.drop 6).take dcl) := by
        have := @goSlice_eq_some packet 6 (6 + dcl) (by omega) hA
        simpa using this
      by_cases hB : 6 + dcl < packet.length
      · obtain ⟨scl, hs⟩ : ∃ v, packet.get? (6 + dcl) = some v := by
          rw [List.get?_eq_get hB]
          exact ⟨_, rfl⟩
        have hsg : packet.getD (6 + dcl) 0 = scl := getD_zero_of_get? hs
        rw [hsg] at hshort
        have hscl : scl < 256 := hb _ (List.get?_mem hs)
        have e2 : (6 + dcl + 1) % 256 = 6 + dcl + 1 := Nat.mod_eq_of_lt (by omega)
        by_cases hw : 6 + dcl + 1 + scl ≤ 255
        · have e3 : (6 + dcl + 1 + scl) % 256 = 6 + dcl + 1 + scl :=
            Nat.mod_eq_of_lt (by omega)
          have s3 : goSlice packet (6 + dcl + 1) (6 + dcl + 1 + scl) = none :=
            goSlice_eq_none (fun hx => by omega)
          simp only [parseLongHeader, goIndex, h0, s1, hd, e1, e2, e3, s2, hs, s3,
            Option.bind_eq_bind, Option.some_bind, Option.none_bind]
        · have e3 : (6 + dcl + 1 + scl) % 256 = 6 + dcl + 1 + scl - 256 := by
            rw [Nat.mod_eq_sub_mod (by omega), Nat.mod_eq_of_lt (by omega)]
          have s3 : goSlice packet (6 + dcl + 1) (6 + dcl + 1 + scl - 256) = none :=
            goSlice_eq_none (fun hx => by omega)
          simp only [parseLongHeader, goIndex, h0, s1, hd, e1, e2, e3, s2, hs, s3,
            Option.bind_eq_bind, Option.some_bind, Option.none_bind]
      · have hse : packet.get? (6 + dcl) = none := by
          rw [List.get?_eq_none]
          omega
        simp only [parseLongHeader, goIndex, h0, s1, hd, e1, s2, hse,
          Option.bind_eq_bind, Option.some_bind, Option.none_bind]
    · have s2 : goSlice packet 6 ((6 + dcl) % 256) = none := by
        rw [e1]
        exact goSlice_eq_none (fun hx => hA hx.2)
      simp only [parseLongHeader, goIndex, h0, s1, hd, s2,
        Option.bind_eq_bind, Option.some_bind, Option.none_bind]
  · cases h0 : packet.get? 0 with
    | none =>
      simp only [parseLongHeader, goIndex, h0, Option.bind_eq_bind, Option.none_bind]
    | some b0 =>
      by_cases h15 : 5 ≤ packet.length
      · have h5e : packet.get? 5 = none := by
          rw [List.get?_eq_none]
          omega
        have s1 : goSlice packet 1 5 = some ((packet.drop 1).take 4) := by
          have := @goSlice_eq_some packet 1 5 (by omega) h15
          simpa using this
        simp only [parseLongHeader, goIndex, h0, s1, h5e,
          Option.bind_eq_bind, Option.some_bind, Option.none_bind]
      · have s1 : goSlice packet 1 5 = none :=
          goSlice_eq_none (fun hx => h15 hx.2)
        simp only [parseLongHeader, goIndex, h0, s1,
          Option.bind_eq_bind, Option.some_bind, Option.none_bind]

/-- Claim C2 witness: the amended statement applied to a 6-byte long-form
datagram declaring a 3-byte destination CID it does not contain. -/
theorem c2_witness :
    ([0x80, 0x00, 0x00, 0x00, 0x00, 0x03] : List Nat).getD 5 0 ≤ 248 ∧
      parseLongHeader [0x80, 0x00, 0x00, 0x00, 0x00, 0x03] = none :=
  ⟨by decide, c2_truncated_long_parse_panics _ (by decide) (by decide) (by decide)⟩

set_option maxRecDepth 4000

/-- Claim C4 counterexample: the 256-byte long-form datagram with declared
DCID length 0 and declared SCID length 249 is well formed and fits its
declared lengths (6 + 0 + 1 + 249 = 256 bytes), yet parsing yields no
header: the Go `uint8` slice bound `6+0+1+249` wraps to 0, so the code
evaluates `packet[7:0]`, an invalid-slice runtime panic (modelled `none`).
So the claim that parsing recovers the fields of every such datagram fails. -/
theorem c4_counterexample :
    parseLongHeader (0xC0 :: 0x00 :: 0x00 :: 0x00 :: 0x01 :: 0x00 :: 0xF9 ::
      List.replicate 249 0xAB) = none := by
  decide

/-- Claim C4 (amended): for every long-form datagram whose declared
destination-CID length is at most 20, whose declared lengths fit within the
datagram, and whose total declared header length `6 + dcl + 1 + scl` is at
most 255 (so the `uint8` index arithmetic does not wrap), parsing succeeds
with a `nil` error and recovers the destination CID byte-for-byte as bytes
`6 .. 6+dcl-1`, the version as the big-endian 32-bit value of bytes 1-4,
and the destination-CID length as byte 5. -/
theorem c4_long_parse_recovers_fields (packet : List Nat)
    (b0 dcl scl v1 v2 v3 v4 : Nat)
    (h0 : packet.get? 0 = some b0)
    (h1 : packet.get? 1 = some v1) (h2 : packet.get? 2 = some v2)
    (h3 : packet.get? 3 = some v3) (h4 : packet.get? 4 = some v4)
    (hd : packet.get? 5 = some dcl) (hdcl : dcl ≤ 20)
    (hs : packet.get? (6 + dcl) = some scl)
    (hwrap : 6 + dcl + 1 + scl ≤ 255)
    (hlen : 6 + dcl + 1 + scl ≤ packet.length) :
    (parseLongHeader packet).map
        (fun r => (r.1.DCID, r.1.DCIDLength, r.1.Version, r.2)) =
      some ((packet.drop 6).take dcl, dcl,
        v1 * 16777216 + v2 * 65536 + v3 * 256 + v4, none) ∧
      ((packet.drop 6).take dcl).length = dcl := by
  have hp := parseLongHeader_success h0 hd hs (by omega) hwrap hlen
  have hv := drop_one_take_four h1 h2 h3 h4
  constructor
  · rw [hp, Option.map_some', hv]
    simp [beUint32]
  · simp only [List.length_take, List.length_drop]
    omega

/-- Claim C4 witness: the amended statement applied to the repository's own
long-header test vector (8-byte DCID, 4-byte SCID, version 1). -/
theorem c4_witness :
    (parseLongHeader
        [0xC0, 0, 0, 0, 1, 8, 1, 2, 3, 4, 5, 6, 7, 8, 4, 0xA, 0xB, 0xC, 0xD]).map
        (fun r => (r.1.DCID, r.1.DCIDLength, r.1.Version, r.2)) =
      some ((([0xC0, 0, 0, 0, 1, 8, 1, 2, 3, 4, 5, 6, 7, 8, 4, 0xA, 0xB, 0xC, 0xD] :
          List Nat).drop 6).take 8, 8, 0 * 16777216 + 0 * 65536 + 0 * 256 + 1, none) :=
  (c4_long_parse_recovers_fields _ 0xC0 8 4 0 0 0 1 (by decide) (by decide)
    (by decide) (by decide) (by decide) (by decide) (by decide) (by decide)
    (by decide) (by decide)).1

/-- Claim C8 witness: `Start` on an already running balancer and `Shutdown`
on a stopped one, at concrete states. -/
theorem c8_witness :
    Start (Except.ok 7)
        { listenAddr := "addr", backends := ["b1"], listener := some 3,
          running := true, packetProcessor := none } =
      ({ listenAddr := "addr", backends := ["b1"], listener := some 3,
         running := true, packetProcessor := none }, none) ∧
    Shutdown none
        { listenAddr := "addr", backends := ["b1"], listener := none,
          running := false, packetProcessor := none } =
      ({ listenAddr := "addr", backends := ["b1"], listener := none,
         running := false, packetProcessor := none }, none) := by
  refine ⟨(c8_start_shutdown_idempotent _ (Except.ok 7) none).1 rfl,
    (c8_start_shutdown_idempotent _ (Except.ok 7) none).2 rfl⟩

end QuicLB
